import Mathlib

/-!
Verification of the video-ingestion analysis core of the zhulong repository:
format sniffing (`DetectFormatByMagicNumber`, `ValidateFormat`), structural
metadata extraction (`ExtractInfo` and the MP4/AVI/WebM walkers), byte-size
policy (`SizeLimitManager`), and thumbnail option handling
(`ValidateOptions`, `GenerateMultiple`, `CalculateAspectRatio`).

Modelling conventions:
- Go byte slices are `List Nat` (each element one byte); multi-byte reads and
  subslices go through `readU32BE` / `readU32LE` / `sliceRange`, which return
  `none` exactly when the corresponding Go slice expression would be out of
  bounds.  Totality theorems show the `none` case is unreachable, mirroring
  the absence of panics in the Go code.
- Go `int64`/`int` values are `Int`; unsigned 32-bit reads are `Nat` below
  2^32 by construction.  The one place the Go code converts a length to
  `uint32` is modelled with an explicit `% 2^32`.
- Go `float64` values (frame rates, time offsets, size quotients, aspect
  ratios) are modelled as exact rationals `ℚ`; `fmt`'s `%.2f` is modelled as
  exact decimal rounding half-to-even, which agrees with Go wherever the
  float arithmetic is exact (all quantities below 2^53 divided by powers of
  two, which covers every concrete value the claims mention).
- The Go stdlib JPEG/PNG encoders (`image/jpeg`, `image/png`), external to
  this repository, are abstracted as an `ImageEncoder` parameter.
-/

deriving instance DecidableEq for Except

namespace Zhulong

/-! ## Byte-buffer primitives (Go `bytes` / `encoding/binary`) -/

/-- Go `bytes.HasPrefix data pat`. -/
def bytesStartWith : List Nat → List Nat → Bool
  | _, [] => true
  | [], _ :: _ => false
  | d :: ds, p :: ps => d == p && bytesStartWith ds ps

/-- Go `bytes.Index data pat`: index of the first occurrence of `pat` in
`data`, `none` when absent (Go returns -1). -/
def indexOfSeq (data pat : List Nat) : Option Nat :=
  if bytesStartWith data pat then some 0
  else
    match data with
    | [] => none
    | _ :: ds => (indexOfSeq ds pat).map (· + 1)

/-- Go `bytes.Contains data pat`. -/
def containsSeq (data pat : List Nat) : Bool :=
  (indexOfSeq data pat).isSome

/-- Go `binary.BigEndian.Uint32(data[i:i+4])`; `none` models the slice
bounds panic. -/
def readU32BE (data : List Nat) (i : Nat) : Option Nat :=
  if i + 4 ≤ data.length then
    some (data.getD i 0 * 16777216 + data.getD (i + 1) 0 * 65536 +
      data.getD (i + 2) 0 * 256 + data.getD (i + 3) 0)
  else none

/-- Go `binary.LittleEndian.Uint32(data[i:i+4])`; `none` models the slice
bounds panic. -/
def readU32LE (data : List Nat) (i : Nat) : Option Nat :=
  if i + 4 ≤ data.length then
    some (data.getD (i + 3) 0 * 16777216 + data.getD (i + 2) 0 * 65536 +
      data.getD (i + 1) 0 * 256 + data.getD i 0)
  else none

/-- Go slice expression `data[lo:hi]`; `none` models the bounds panic. -/
def sliceRange (data : List Nat) (lo hi : Nat) : Option (List Nat) :=
  if lo ≤ hi ∧ hi ≤ data.length then some ((data.drop lo).take (hi - lo))
  else none

/-! ## FormatSniffer (`VideoValidator`, info_extractor.go) -/

/-- EBML signature `1A 45 DF A3` (`initMagicNumbers`, key "webm"). -/
def webmMagic : List Nat := [0x1A, 0x45, 0xDF, 0xA3]

/-- ASCII "RIFF" (`initMagicNumbers`, key "avi"). -/
def riffMagic : List Nat := [0x52, 0x49, 0x46, 0x46]

/-- ASCII "ftyp" (`initMagicNumbers`, keys "mp4"/"mov"). -/
def ftypMagic : List Nat := [0x66, 0x74, 0x79, 0x70]

/-- ASCII "AVI " checked at bytes 8..12 of a RIFF file. -/
def aviTag : List Nat := [0x41, 0x56, 0x49, 0x20]

/-- MP4 brand list of `DetectFormatByMagicNumber`: mp41, mp42, isom, dash. -/
def mp4Brands : List (List Nat) :=
  [[0x6D, 0x70, 0x34, 0x31], [0x6D, 0x70, 0x34, 0x32],
   [0x69, 0x73, 0x6F, 0x6D], [0x64, 0x61, 0x73, 0x68]]

/-- MOV brand list of `DetectFormatByMagicNumber`: "qt  ". -/
def movBrands : List (List Nat) := [[0x71, 0x74, 0x20, 0x20]]

/-- Errors of `DetectFormatByMagicNumber`. -/
inductive FormatError
  | incompleteHeader
  | unrecognizedFormat
deriving Repr, DecidableEq

/-- Model of `VideoValidator.DetectFormatByMagicNumber` (info_extractor.go:527-580):
length guard, then WebM by EBML signature, AVI by RIFF + "AVI ", then the
ftyp box brand dispatch for MP4/MOV. -/
def detectFormatByMagicNumber (data : List Nat) : Except FormatError String :=
  if data.length < 4 then .error .incompleteHeader
  else if bytesStartWith data webmMagic then .ok "webm"
  else if bytesStartWith data riffMagic = true ∧ 12 ≤ data.length ∧
      (data.drop 8).take 4 = aviTag then .ok "avi"
  else if 12 ≤ data.length ∧ (data.drop 4).take 4 = ftypMagic then
    if (data.drop 8).take 4 ∈ mp4Brands then .ok "mp4"
    else if (data.drop 8).take 4 ∈ movBrands then .ok "mov"
    else .error .unrecognizedFormat
  else .error .unrecognizedFormat

/-! ## Helper lemmas about the byte primitives -/

theorem bytesStartWith_iff_take (pat : List Nat) :
    ∀ data : List Nat, bytesStartWith data pat = true ↔ data.take pat.length = pat := by
  induction pat with
  | nil => intro data; simp [bytesStartWith.eq_def]
  | cons p ps ih =>
    intro data
    cases data with
    | nil => simp [bytesStartWith]
    | cons d ds =>
      simp only [bytesStartWith, List.length_cons, List.take_succ_cons,
        Bool.and_eq_true, beq_iff_eq, List.cons.injEq]
      exact and_congr Iff.rfl (ih ds)

theorem readU32BE_isSome (data : List Nat) (i : Nat) (h : i + 4 ≤ data.length) :
    ∃ v, readU32BE data i = some v := by
  unfold readU32BE
  rw [if_pos h]
  exact ⟨_, rfl⟩

theorem readU32LE_isSome (data : List Nat) (i : Nat) (h : i + 4 ≤ data.length) :
    ∃ v, readU32LE data i = some v := by
  unfold readU32LE
  rw [if_pos h]
  exact ⟨_, rfl⟩

theorem sliceRange_eq {data : List Nat} {lo hi : Nat} (h1 : lo ≤ hi)
    (h2 : hi ≤ data.length) :
    sliceRange data lo hi = some ((data.drop lo).take (hi - lo)) := by
  unfold sliceRange
  rw [if_pos ⟨h1, h2⟩]

theorem sliceRange_length {data out : List Nat} {lo hi : Nat}
    (h : sliceRange data lo hi = some out) (h2 : hi ≤ data.length) :
    out.length = hi - lo := by
  unfold sliceRange at h
  split at h
  · cases h
    simp [List.length_take, List.length_drop]
    omega
  · cases h

theorem bytesStartWith_len4 (magic : List Nat) (data : List Nat)
    (hm : magic.length = 4) :
    bytesStartWith data magic = true ↔ data.take 4 = magic := by
  rw [bytesStartWith_iff_take, hm]

theorem take4_ge_length {data magic : List Nat} (h : data.take 4 = magic)
    (hm : magic.length = 4) : 4 ≤ data.length := by
  have hl := congrArg List.length h
  rw [List.length_take, hm] at hl
  omega

/-- Claim C1: `DetectFormat` fails `IncompleteHeader` below 4 bytes; returns
WEBM on the EBML signature; AVI on "RIFF" + (≥12 bytes) "AVI " at 8..12; with
≥12 bytes and "ftyp" at 4..8, MP4 on brand ∈ {mp41, mp42, isom, dash} and MOV
on brand "qt  "; fails `UnrecognizedFormat` in every other case; and each of
the four minimal valid signatures yields its format. -/
theorem detectFormat_claim :
    (∀ data : List Nat, data.length < 4 →
        detectFormatByMagicNumber data = .error .incompleteHeader)
    ∧ (∀ data : List Nat, data.take 4 = webmMagic →
        detectFormatByMagicNumber data = .ok "webm")
    ∧ (∀ data : List Nat, data.take 4 = riffMagic → 12 ≤ data.length →
        (data.drop 8).take 4 = aviTag →
        detectFormatByMagicNumber data = .ok "avi")
    ∧ (∀ data : List Nat, data.take 4 ≠ webmMagic → 12 ≤ data.length →
        (data.drop 4).take 4 = ftypMagic → (data.drop 8).take 4 ∈ mp4Brands →
        detectFormatByMagicNumber data = .ok "mp4")
    ∧ (∀ data : List Nat, data.take 4 ≠ webmMagic → 12 ≤ data.length →
        (data.drop 4).take 4 = ftypMagic →
        (data.drop 8).take 4 = [0x71, 0x74, 0x20, 0x20] →
        detectFormatByMagicNumber data = .ok "mov")
    ∧ (∀ data : List Nat, 4 ≤ data.length → data.take 4 ≠ webmMagic →
        ¬ (data.take 4 = riffMagic ∧ 12 ≤ data.length ∧
            (data.drop 8).take 4 = aviTag) →
        ¬ (12 ≤ data.length ∧ (data.drop 4).take 4 = ftypMagic ∧
            ((data.drop 8).take 4 ∈ mp4Brands ∨
              (data.drop 8).take 4 = [0x71, 0x74, 0x20, 0x20])) →
        detectFormatByMagicNumber data = .error .unrecognizedFormat)
    ∧ detectFormatByMagicNumber [0, 0, 0, 0, 0x66, 0x74, 0x79, 0x70,
        0x69, 0x73, 0x6F, 0x6D] = .ok "mp4"
    ∧ detectFormatByMagicNumber [0, 0, 0, 0, 0x66, 0x74, 0x79, 0x70,
        0x71, 0x74, 0x20, 0x20] = .ok "mov"
    ∧ detectFormatByMagicNumber [0x52, 0x49, 0x46, 0x46, 0, 0, 0, 0,
        0x41, 0x56, 0x49, 0x20] = .ok "avi"
    ∧ detectFormatByMagicNumber [0x1A, 0x45, 0xDF, 0xA3] = .ok "webm" := by
  refine ⟨?_, ?_, ?_, ?_, ?_, ?_, by decide, by decide, by decide, by decide⟩
  · intro data h
    unfold detectFormatByMagicNumber
    rw [if_pos h]
  · intro data h
    have hlen : 4 ≤ data.length := take4_ge_length h rfl
    have hw : bytesStartWith data webmMagic = true := by
      rw [bytesStartWith_len4 webmMagic data rfl]
      exact h
    unfold detectFormatByMagicNumber
    rw [if_neg (by omega), if_pos hw]
  · intro data hriff h12 havi
    unfold detectFormatByMagicNumber
    rw [if_neg (by omega)]
    rw [if_neg (by
      rw [bytesStartWith_len4 webmMagic data rfl, hriff]
      decide)]
    rw [if_pos ⟨(bytesStartWith_len4 riffMagic data rfl).mpr hriff, h12, havi⟩]
  · intro data hweb h12 hftyp hbrand
    unfold detectFormatByMagicNumber
    rw [if_neg (by omega)]
    rw [if_neg (by rw [bytesStartWith_len4 webmMagic data rfl]; exact hweb)]
    rw [if_neg (by
      rintro ⟨-, -, he⟩
      rw [he] at hbrand
      exact absurd hbrand (by decide))]
    rw [if_pos ⟨h12, hftyp⟩, if_pos hbrand]
  · intro data hweb h12 hftyp hbrand
    unfold detectFormatByMagicNumber
    rw [if_neg (by omega)]
    rw [if_neg (by rw [bytesStartWith_len4 webmMagic data rfl]; exact hweb)]
    rw [if_neg (by
      rintro ⟨-, -, he⟩
      exact absurd (he.symm.trans hbrand) (by decide))]
    rw [if_pos ⟨h12, hftyp⟩, hbrand]
    rw [if_neg (by decide), if_pos (by decide)]
  · intro data h4 hweb havi hftyp
    unfold detectFormatByMagicNumber
    rw [if_neg (by omega)]
    rw [if_neg (by rw [bytesStartWith_len4 webmMagic data rfl]; exact hweb)]
    rw [if_neg (by
      rintro ⟨ha, hb, hc⟩
      rw [bytesStartWith_len4 riffMagic data rfl] at ha
      exact havi ⟨ha, hb, hc⟩)]
    split_ifs with h1 h2 h3
    · exact absurd ⟨h1.1, h1.2, Or.inl h2⟩ hftyp
    · have hqt : (data.drop 8).take 4 = [0x71, 0x74, 0x20, 0x20] := by
        simpa [movBrands] using h3
      exact absurd ⟨h1.1, h1.2, Or.inr hqt⟩ hftyp
    · rfl
    · rfl

/-- Witness for C1: a 2-byte buffer fails `IncompleteHeader`. -/
theorem detectFormat_claim_witness :
    detectFormatByMagicNumber [0x10, 0x20] = .error .incompleteHeader :=
  detectFormat_claim.1 [0x10, 0x20] (by decide)

/-! ## SizeLimitPolicy (`SizeLimitManager`, size_limit.go) -/

/-- State of `SizeLimitManager` (size_limit.go:8-12); the Go
`map[string]int64` of per-format limits is a list of pairs. -/
structure SizeLimitManager where
  maxFileSize : Int
  minFileSize : Int
  formatLimits : List (String × Int)
deriving Repr, DecidableEq

/-- Model of `NewSizeLimitManager` (size_limit.go:23-29): max 2 GiB, min 1 byte, no
per-format overrides. -/
def newSizeLimitManager : SizeLimitManager :=
  { maxFileSize := 2147483648, minFileSize := 1, formatLimits := [] }

/-- Errors of `ValidateSize` (size_limit.go:56-71), one per message. -/
inductive SizeError
  | negativeSize
  | emptySize
  | tooLarge
deriving Repr, DecidableEq

/-- Model of `SizeLimitManager.ValidateSize` (size_limit.go:56-71). -/
def validateSize (s : SizeLimitManager) (size : Int) : Except SizeError Unit :=
  if size < 0 then .error .negativeSize
  else if size < s.minFileSize then .error .emptySize
  else if s.maxFileSize < size then .error .tooLarge
  else .ok ()

/-- Model of `SizeLimitManager.SetMaxFileSize` (size_limit.go:42-46): assigns only
when the argument is positive. -/
def setMaxFileSize (s : SizeLimitManager) (size : Int) : SizeLimitManager :=
  if 0 < size then { s with maxFileSize := size } else s

/-- Model of `SizeLimitManager.SetMinFileSize` (size_limit.go:49-53): assigns only
when the argument is non-negative. -/
def setMinFileSize (s : SizeLimitManager) (size : Int) : SizeLimitManager :=
  if 0 ≤ size then { s with minFileSize := size } else s

/-- Model of `SizeLimitManager.SetFormatLimits` (size_limit.go:165-172): rebuilds the
per-format table keeping only positive limits. -/
def setFormatLimits (s : SizeLimitManager) (limits : List (String × Int)) :
    SizeLimitManager :=
  { s with formatLimits := limits.filter (fun p => 0 < p.2) }

/-- Argument record of `UpdateLimits` (the `SizeLimits` struct,
size_limit.go:15-20). -/
structure SizeLimits where
  maxFileSize : Int
  minFileSize : Int
  maxFileSizeFormatted : String
  minFileSizeFormatted : String
deriving Repr, DecidableEq

/-- Errors of `UpdateLimits` (size_limit.go:145-162), one per message. -/
inductive UpdateError
  | maxNotPositive
  | minNegative
  | minGeMax
deriving Repr, DecidableEq

/-- Model of `SizeLimitManager.UpdateLimits` (size_limit.go:145-162): three validation
checks, then both assignments; the pair returns the post-call state together
with the returned error, making the mutation order explicit. -/
def updateLimits (s : SizeLimitManager) (limits : SizeLimits) :
    SizeLimitManager × Option UpdateError :=
  if limits.maxFileSize ≤ 0 then (s, some .maxNotPositive)
  else if limits.minFileSize < 0 then (s, some .minNegative)
  else if limits.maxFileSize ≤ limits.minFileSize then (s, some .minGeMax)
  else ({ s with maxFileSize := limits.maxFileSize,
                 minFileSize := limits.minFileSize }, none)

/-- Go `fmt.Sprintf("%.2f", x)` rounding step: nearest hundredth, ties to
even, for the exact value `a / b` (`b > 0`). -/
def roundHalfEvenDiv (a b : Nat) : Nat :=
  let q := a / b
  let r := a % b
  if 2 * r < b then q
  else if b < 2 * r then q + 1
  else if q % 2 = 0 then q else q + 1

/-- Two-digit zero padding, as in `%02d` / the fractional part of `%.2f`. -/
def pad2 (n : Nat) : String :=
  if n < 10 then "0" ++ toString n else toString n

/-- Model of `fmt.Sprintf("%.2f", float64(size)/divisor)` for a non-negative size and
a power-of-two divisor, with float64 idealized as exact arithmetic. -/
def formatFixed2 (size divisor : Nat) : String :=
  let h := roundHalfEvenDiv (size * 100) divisor
  toString (h / 100) ++ "." ++ pad2 (h % 100)

/-- Model of `SizeLimitManager.FormatSize` (size_limit.go:112-132): binary units
B/KB/MB/GB/TB with divisor 1024, `%.2f` at KB and above, `%d B` below. -/
def formatSize (size : Int) : String :=
  if 1099511627776 ≤ size then formatFixed2 size.toNat 1099511627776 ++ " TB"
  else if 1073741824 ≤ size then formatFixed2 size.toNat 1073741824 ++ " GB"
  else if 1048576 ≤ size then formatFixed2 size.toNat 1048576 ++ " MB"
  else if 1024 ≤ size then formatFixed2 size.toNat 1024 ++ " KB"
  else toString size ++ " B"

/-- Claim C5: for a configured pair with `0 ≤ min ≤ max` (all reachable
configurations satisfy this), `ValidateSize` fails `NegativeSize` iff
`size < 0`, `EmptySize` iff `0 ≤ size < min`, `TooLarge` iff `size > max`,
and succeeds otherwise; under the defaults, size 0 fails `EmptySize` and
`size = max = 2 GiB` succeeds. -/
theorem validateSize_claim :
    (∀ (s : SizeLimitManager) (size : Int), 0 ≤ s.minFileSize →
        s.minFileSize ≤ s.maxFileSize →
        (validateSize s size = .error .negativeSize ↔ size < 0)
        ∧ (validateSize s size = .error .emptySize ↔
            0 ≤ size ∧ size < s.minFileSize)
        ∧ (validateSize s size = .error .tooLarge ↔ s.maxFileSize < size)
        ∧ (validateSize s size = .ok () ↔
            s.minFileSize ≤ size ∧ size ≤ s.maxFileSize))
    ∧ validateSize newSizeLimitManager 0 = .error .emptySize
    ∧ validateSize newSizeLimitManager 2147483648 = .ok () := by
  refine ⟨?_, by decide, by decide⟩
  intro s size h0 h1
  unfold validateSize
  split_ifs with ha hb hc
  · exact ⟨iff_of_true rfl ha, iff_of_false (by decide) (by omega),
      iff_of_false (by decide) (by omega), iff_of_false (by decide) (by omega)⟩
  · exact ⟨iff_of_false (by decide) (by omega), iff_of_true rfl ⟨by omega, hb⟩,
      iff_of_false (by decide) (by omega), iff_of_false (by decide) (by omega)⟩
  · exact ⟨iff_of_false (by decide) (by omega), iff_of_false (by decide) (by omega),
      iff_of_true rfl hc, iff_of_false (by decide) (by omega)⟩
  · exact ⟨iff_of_false (by decide) (by omega), iff_of_false (by decide) (by omega),
      iff_of_false (by decide) (by omega), iff_of_true rfl ⟨by omega, by omega⟩⟩

/-- Witness for C5 at the default limits and size 5. -/
theorem validateSize_claim_witness :
    validateSize newSizeLimitManager 5 = .ok () :=
  ((validateSize_claim.1 newSizeLimitManager 5 (by decide)
    (by decide)).2.2.2).mpr (by decide)

/-- Claim C6: `FormatSize` uses binary divisor 1024 with units B/KB/MB/GB/TB,
the integer byte count below 1 KB and two decimal places at 1 KB and above;
`FormatSize(1024) = "1.00 KB"`, `FormatSize(1023) = "1023 B"`,
`FormatSize(2·1024³) = "2.00 GB"`. -/
theorem formatSize_claim :
    formatSize 1024 = "1.00 KB"
    ∧ formatSize 1023 = "1023 B"
    ∧ formatSize 2147483648 = "2.00 GB"
    ∧ (∀ size : Int, 0 ≤ size → size < 1024 →
        formatSize size = toString size ++ " B")
    ∧ (∀ size : Int, 1024 ≤ size → ∃ (n d : Nat) (u : String), d < 100 ∧
        (u = "KB" ∨ u = "MB" ∨ u = "GB" ∨ u = "TB") ∧
        formatSize size = (toString n ++ "." ++ pad2 d) ++ (" " ++ u)) := by
  refine ⟨by decide, by decide, by decide, ?_, ?_⟩
  · intro size h0 h1
    unfold formatSize
    rw [if_neg (by omega), if_neg (by omega), if_neg (by omega),
      if_neg (by omega)]
  · intro size hsz
    unfold formatSize
    split_ifs with h1 h2 h3
    · refine ⟨roundHalfEvenDiv (size.toNat * 100) 1099511627776 / 100,
        roundHalfEvenDiv (size.toNat * 100) 1099511627776 % 100, "TB",
        Nat.mod_lt _ (by norm_num), by tauto, ?_⟩
      rw [show ((" " : String) ++ "TB") = " TB" from by decide]
      simp [formatFixed2]
    · refine ⟨roundHalfEvenDiv (size.toNat * 100) 1073741824 / 100,
        roundHalfEvenDiv (size.toNat * 100) 1073741824 % 100, "GB",
        Nat.mod_lt _ (by norm_num), by tauto, ?_⟩
      rw [show ((" " : String) ++ "GB") = " GB" from by decide]
      simp [formatFixed2]
    · refine ⟨roundHalfEvenDiv (size.toNat * 100) 1048576 / 100,
        roundHalfEvenDiv (size.toNat * 100) 1048576 % 100, "MB",
        Nat.mod_lt _ (by norm_num), by tauto, ?_⟩
      rw [show ((" " : String) ++ "MB") = " MB" from by decide]
      simp [formatFixed2]
    · refine ⟨roundHalfEvenDiv (size.toNat * 100) 1024 / 100,
        roundHalfEvenDiv (size.toNat * 100) 1024 % 100, "KB",
        Nat.mod_lt _ (by norm_num), by tauto, ?_⟩
      rw [show ((" " : String) ++ "KB") = " KB" from by decide]
      simp [formatFixed2]

/-- Witness for C6 on size 512 (below 1 KB). -/
theorem formatSize_claim_witness :
    formatSize 512 = toString (512 : Int) ++ " B" :=
  formatSize_claim.2.2.2.1 512 (by decide) (by decide)

/-- Counterexample for C4 as stated: the state max = 10, min = 5 satisfies
the invariant, yet `SetMaxFileSize 3` (its only guard is `size > 0`) yields
max = 3 < min = 5, breaking `min_bytes < max_bytes`. -/
theorem setMaxFileSize_invariant_cex :
    ((⟨10, 5, []⟩ : SizeLimitManager).minFileSize <
        (⟨10, 5, []⟩ : SizeLimitManager).maxFileSize)
    ∧ ¬ ((setMaxFileSize ⟨10, 5, []⟩ 3).minFileSize <
        (setMaxFileSize ⟨10, 5, []⟩ 3).maxFileSize) := by
  decide

/-- Claim C4 amended: `UpdateLimits` and `SetFormatLimits` preserve
`min_bytes < max_bytes` for every argument; `SetMaxFileSize` preserves it
provided a positive argument exceeds the current minimum, and
`SetMinFileSize` provided a non-negative argument is below the current
maximum (their only internal guards are `size > 0` resp. `size ≥ 0`). -/
theorem sizeLimitMutators_amended :
    (∀ (s : SizeLimitManager) (limits : SizeLimits),
        s.minFileSize < s.maxFileSize →
        (updateLimits s limits).1.minFileSize <
          (updateLimits s limits).1.maxFileSize)
    ∧ (∀ (s : SizeLimitManager) (limits : List (String × Int)),
        s.minFileSize < s.maxFileSize →
        (setFormatLimits s limits).minFileSize <
          (setFormatLimits s limits).maxFileSize)
    ∧ (∀ (s : SizeLimitManager) (size : Int),
        s.minFileSize < s.maxFileSize → (0 < size → s.minFileSize < size) →
        (setMaxFileSize s size).minFileSize <
          (setMaxFileSize s size).maxFileSize)
    ∧ (∀ (s : SizeLimitManager) (size : Int),
        s.minFileSize < s.maxFileSize → (0 ≤ size → size < s.maxFileSize) →
        (setMinFileSize s size).minFileSize <
          (setMinFileSize s size).maxFileSize) := by
  refine ⟨?_, ?_, ?_, ?_⟩
  · intro s limits h
    unfold updateLimits
    split_ifs with h1 h2 h3 <;> simp <;> omega
  · intro s limits h
    simpa [setFormatLimits] using h
  · intro s size h himp
    unfold setMaxFileSize
    split_ifs with hp
    · simpa using himp hp
    · exact h
  · intro s size h himp
    unfold setMinFileSize
    split_ifs with hp
    · simpa using himp hp
    · exact h

/-- Witness for the amended C4: shrinking the default maximum to 1 GiB
keeps the invariant. -/
theorem sizeLimitMutators_amended_witness :
    (setMaxFileSize newSizeLimitManager 1073741824).minFileSize <
      (setMaxFileSize newSizeLimitManager 1073741824).maxFileSize :=
  sizeLimitMutators_amended.2.2.1 newSizeLimitManager 1073741824 (by decide)
    (fun _ => by decide)

/-- Claim C10: a rejected `UpdateLimits` call leaves the manager unchanged
(every check precedes every assignment), and it is rejected exactly when
`max ≤ 0`, `min < 0`, or `min ≥ max`. -/
theorem updateLimits_claim :
    (∀ (s : SizeLimitManager) (limits : SizeLimits) (e : UpdateError),
        (updateLimits s limits).2 = some e → (updateLimits s limits).1 = s)
    ∧ (∀ (s : SizeLimitManager) (limits : SizeLimits),
        ((updateLimits s limits).2).isSome = true ↔
          (limits.maxFileSize ≤ 0 ∨ limits.minFileSize < 0 ∨
            limits.maxFileSize ≤ limits.minFileSize)) := by
  constructor
  · intro s limits e h
    unfold updateLimits at h ⊢
    split_ifs at h ⊢ <;> first | rfl | simp at h
  · intro s limits
    unfold updateLimits
    split_ifs with h1 h2 h3 <;> simp <;> omega

/-- Witness for C10: the all-zero limits record is rejected and the default
manager is left unchanged. -/
theorem updateLimits_claim_witness :
    (updateLimits newSizeLimitManager ⟨0, 0, "", ""⟩).1 = newSizeLimitManager :=
  updateLimits_claim.1 newSizeLimitManager ⟨0, 0, "", ""⟩ .maxNotPositive
    (by decide)

/-! ## StructuralMetadataExtractor (`VideoInfoExtractor`, info_extractor.go) -/

/-- The `VideoInfo` record (info_extractor.go:24-45).  `time.Duration` is
its `Int` nanosecond count; the float64 frame rate is an exact rational. -/
structure VideoInfo where
  filename : String
  format : String
  fileSize : Int
  durationNs : Int
  width : Int
  height : Int
  bitrate : Int
  frameRate : ℚ
  videoCodec : String
  audioCodec : String
  durationFormatted : String
  resolutionFormatted : String
  fileSizeFormatted : String
deriving Repr, DecidableEq

/-- The `&VideoInfo{Filename, Format, FileSize}` literal of `ExtractInfo`
(info_extractor.go:72-76): all other fields zero/empty. -/
def VideoInfo.init (filename format : String) (fileSize : Int) : VideoInfo :=
  { filename := filename, format := format, fileSize := fileSize,
    durationNs := 0, width := 0, height := 0, bitrate := 0, frameRate := 0,
    videoCodec := "", audioCodec := "", durationFormatted := "",
    resolutionFormatted := "", fileSizeFormatted := "" }

/-- ASCII "mvhd". -/
def mvhdTag : List Nat := [0x6D, 0x76, 0x68, 0x64]

/-- ASCII "tkhd". -/
def tkhdTag : List Nat := [0x74, 0x6B, 0x68, 0x64]

/-- ASCII "stsd". -/
def stsdTag : List Nat := [0x73, 0x74, 0x73, 0x64]

/-- ASCII "avih". -/
def avihTag : List Nat := [0x61, 0x76, 0x69, 0x68]

/-- ASCII "avc1". -/
def avc1Tag : List Nat := [0x61, 0x76, 0x63, 0x31]

/-- ASCII "hvc1". -/
def hvc1Tag : List Nat := [0x68, 0x76, 0x63, 0x31]

/-- ASCII "mp4a". -/
def mp4aTag : List Nat := [0x6D, 0x70, 0x34, 0x61]

/-- Model of `extractMovieHeader` (info_extractor.go:185-200): guard `len < 32`, skip
the 12-byte header, read timescale and duration at offsets 20/24, set the
duration only for a positive timescale.  `time.Duration(d)*time.Second /
time.Duration(ts)` is integer arithmetic: `d * 1e9 / ts` truncated. -/
def extractMovieHeader (boxData : List Nat) (info : VideoInfo) :
    Option VideoInfo :=
  if boxData.length < 32 then some info
  else
    (readU32BE boxData 20).bind fun timeScale =>
    (readU32BE boxData 24).bind fun duration =>
    if 0 < timeScale then
      some { info with durationNs := ((duration * 1000000000) / timeScale : Nat) }
    else some info

/-- Model of `extractTrackHeader` (info_extractor.go:203-214): guard `len < 92`, read
the 16.16 fixed-point width/height from the trailing 8 bytes, keep the
integer part (`>> 16`). -/
def extractTrackHeader (boxData : List Nat) (info : VideoInfo) :
    Option VideoInfo :=
  if boxData.length < 92 then some info
  else
    (readU32BE boxData (boxData.length - 8)).bind fun widthFixed =>
    (readU32BE boxData (boxData.length - 4)).bind fun heightFixed =>
    some { info with width := (widthFixed / 65536 : Nat),
                     height := (heightFixed / 65536 : Nat) }

/-- Model of `extractSampleDescription` (info_extractor.go:217-233): guard `len < 16`,
then byte-search for codec FourCCs. -/
def extractSampleDescription (boxData : List Nat) (info : VideoInfo) :
    VideoInfo :=
  if boxData.length < 16 then info
  else
    let info1 :=
      if containsSeq boxData avc1Tag then { info with videoCodec := "H.264" }
      else if containsSeq boxData hvc1Tag then { info with videoCodec := "H.265" }
      else info
    if containsSeq boxData mp4aTag then { info1 with audioCodec := "AAC" }
    else info1

/-- Loop body of `extractMP4Info` (info_extractor.go:100-128).  The Go loop
`for offset < len(data)-8` reads a big-endian box size and 4-byte type,
stops on `boxSize == 0` or `boxSize > uint32(len(data)-offset)` (the
`uint32` conversion is the explicit `% 2^32`), dispatches on the box type
and advances by `boxSize`.  The redundant Go guard `offset+8 > len(data)`
inside the loop is unreachable (the loop condition implies its negation)
and is not repeated here. -/
def extractMP4Loop (data : List Nat) (offset : Nat) (info : VideoInfo) :
    Option VideoInfo :=
  if h : offset + 8 < data.length then
    (readU32BE data offset).bind fun boxSize =>
    (sliceRange data (offset + 4) (offset + 8)).bind fun boxType =>
    if hb : boxSize = 0 ∨ (data.length - offset) % 4294967296 < boxSize then
      some info
    else
      (sliceRange data offset (offset + boxSize)).bind fun boxData =>
      (if boxType = mvhdTag then extractMovieHeader boxData info
       else if boxType = tkhdTag then extractTrackHeader boxData info
       else if boxType = stsdTag then
         some (extractSampleDescription boxData info)
       else some info).bind fun info2 =>
      extractMP4Loop data (offset + boxSize) info2
  else some info
termination_by data.length - offset
decreasing_by
  simp_wf
  omega

/-- Model of `extractMP4Info` (info_extractor.go:100-128): walk top-level boxes from
offset 0. -/
def extractMP4Info (data : List Nat) (info : VideoInfo) : Option VideoInfo :=
  extractMP4Loop data 0 info

/-- Model of `extractAVIInfo` (info_extractor.go:131-154): byte-search for "avih",
and with 56 bytes available read the little-endian microseconds-per-frame,
total frames and width/height from the header. -/
def extractAVIInfo (data : List Nat) (info : VideoInfo) : Option VideoInfo :=
  match indexOfSeq data avihTag with
  | none => some info
  | some avihPos =>
    if avihPos + 56 ≤ data.length then
      (sliceRange data (avihPos + 8) (avihPos + 56)).bind fun headerData =>
      (readU32LE headerData 0).bind fun microSecPerFrame =>
      (readU32LE headerData 16).bind fun totalFrames =>
      (readU32LE headerData 32).bind fun w =>
      (readU32LE headerData 36).bind fun hgt =>
      let info1 :=
        if 0 < microSecPerFrame then
          { info with frameRate := 1000000 / (microSecPerFrame : ℚ) }
        else info
      let info2 :=
        if 0 < totalFrames ∧ 0 < info1.frameRate then
          { info1 with durationNs :=
              ⌊(totalFrames : ℚ) / info1.frameRate⌋ * 1000000000 }
        else info1
      some { info2 with width := (w : Int), height := (hgt : Int) }
    else some info

/-- Model of `extractWebMInfo` (info_extractor.go:157-177): byte-search for the
Duration / PixelWidth / PixelHeight element IDs; a hit only re-assigns the
zero placeholder (EBML size decoding is not implemented in the source). -/
def extractWebMInfo (data : List Nat) (info : VideoInfo) : VideoInfo :=
  let info1 := if (indexOfSeq data [0x44, 0x89]).isSome then
      { info with durationNs := 0 } else info
  let info2 := if (indexOfSeq data [0xB0]).isSome then
      { info1 with width := 0 } else info1
  if (indexOfSeq data [0xBA]).isSome then { info2 with height := 0 } else info2

/-- Model of `extractDetailedInfo` (info_extractor.go:88-97): dispatch on the
detected format string. -/
def extractDetailedInfo (data : List Nat) (format : String)
    (info : VideoInfo) : Option VideoInfo :=
  if format = "mp4" ∨ format = "mov" then extractMP4Info data info
  else if format = "avi" then extractAVIInfo data info
  else if format = "webm" then some (extractWebMInfo data info)
  else some info

/-- Model of `FormatDuration` (info_extractor.go:317-331): "00:00" for zero,
otherwise `%02d`-padded HH:MM:SS with the hour part only when positive. -/
def formatDuration (durationNs : Int) : String :=
  if durationNs = 0 then "00:00"
  else
    let totalSeconds := durationNs.toNat / 1000000000
    let hours := totalSeconds / 3600
    let minutes := (totalSeconds % 3600) / 60
    let seconds := totalSeconds % 60
    if 0 < hours then pad2 hours ++ ":" ++ pad2 minutes ++ ":" ++ pad2 seconds
    else pad2 minutes ++ ":" ++ pad2 seconds

/-- Model of `FormatResolution` (info_extractor.go:334-336): `"WxH"`. -/
def formatResolution (width height : Int) : String :=
  toString width ++ "x" ++ toString height

/-- Model of `formatDisplayInfo` (info_extractor.go:304-314): fill the three
formatted display fields (the Go code instantiates a fresh
`SizeLimitManager` only to call its pure `FormatSize`). -/
def formatDisplayInfo (info : VideoInfo) : VideoInfo :=
  { info with durationFormatted := formatDuration info.durationNs,
              resolutionFormatted := formatResolution info.width info.height,
              fileSizeFormatted := formatSize info.fileSize }

/-- Errors of `ExtractInfo` (info_extractor.go:55-85); `outOfBounds` is the
model-level marker for a Go slice panic, shown unreachable below. -/
inductive ExtractError
  | emptyData
  | incompleteHeader
  | unrecognizedFormat (e : FormatError)
  | outOfBounds
deriving Repr, DecidableEq

/-- Model of `VideoInfoExtractor.ExtractInfo` (info_extractor.go:55-85). -/
def extractInfo (data : List Nat) (filename : String) :
    Except ExtractError VideoInfo :=
  if data.length = 0 then .error .emptyData
  else if data.length < 12 then .error .incompleteHeader
  else
    match detectFormatByMagicNumber data with
    | .error e => .error (.unrecognizedFormat e)
    | .ok format =>
      match extractDetailedInfo data format
          (VideoInfo.init filename format data.length) with
      | none => .error .outOfBounds
      | some info => .ok (formatDisplayInfo info)

/-! ## Totality of the walkers: no read is ever out of bounds -/

theorem extractMovieHeader_isSome (boxData : List Nat) (info : VideoInfo) :
    ∃ i, extractMovieHeader boxData info = some i := by
  unfold extractMovieHeader
  split_ifs with h
  · exact ⟨info, rfl⟩
  · obtain ⟨v1, hv1⟩ := readU32BE_isSome boxData 20 (by omega)
    obtain ⟨v2, hv2⟩ := readU32BE_isSome boxData 24 (by omega)
    rw [hv1, hv2, Option.some_bind, Option.some_bind]
    split_ifs <;> exact ⟨_, rfl⟩

theorem extractTrackHeader_isSome (boxData : List Nat) (info : VideoInfo) :
    ∃ i, extractTrackHeader boxData info = some i := by
  unfold extractTrackHeader
  split_ifs with h
  · exact ⟨info, rfl⟩
  · obtain ⟨v1, hv1⟩ := readU32BE_isSome boxData
      (boxData.length - 8) (by omega)
    obtain ⟨v2, hv2⟩ := readU32BE_isSome boxData
      (boxData.length - 4) (by omega)
    rw [hv1, hv2, Option.some_bind, Option.some_bind]
    exact ⟨_, rfl⟩

theorem mp4Dispatch_isSome (boxType boxData : List Nat) (info : VideoInfo) :
    ∃ i, (if boxType = mvhdTag then extractMovieHeader boxData info
          else if boxType = tkhdTag then extractTrackHeader boxData info
          else if boxType = stsdTag then
            some (extractSampleDescription boxData info)
          else some info) = some i := by
  split_ifs
  · exact extractMovieHeader_isSome boxData info
  · exact extractTrackHeader_isSome boxData info
  · exact ⟨_, rfl⟩
  · exact ⟨_, rfl⟩

theorem extractMP4Loop_isSome (data : List Nat) :
    ∀ (fuel offset : Nat) (info : VideoInfo), data.length - offset ≤ fuel →
    ∃ i, extractMP4Loop data offset info = some i := by
  intro fuel
  induction fuel with
  | zero =>
    intro offset info h0
    rw [extractMP4Loop]
    rw [dif_neg (by omega)]
    exact ⟨info, rfl⟩
  | succ n ih =>
    intro offset info hle
    rw [extractMP4Loop]
    by_cases hlt : offset + 8 < data.length
    · rw [dif_pos hlt]
      obtain ⟨bs, hbs⟩ := readU32BE_isSome data offset (by omega)
      rw [hbs, Option.some_bind]
      rw [sliceRange_eq (by omega) (by omega), Option.some_bind]
      by_cases hz : bs = 0 ∨ (data.length - offset) % 4294967296 < bs
      · rw [dif_pos hz]
        exact ⟨info, rfl⟩
      · rw [dif_neg hz]
        rw [sliceRange_eq (by omega) (by omega), Option.some_bind]
        obtain ⟨i2, hi2⟩ := mp4Dispatch_isSome
          ((data.drop (offset + 4)).take (offset + 8 - (offset + 4)))
          ((data.drop offset).take (offset + bs - offset)) info
        rw [hi2, Option.some_bind]
        exact ih (offset + bs) i2 (by omega)
    · rw [dif_neg hlt]
      exact ⟨info, rfl⟩

theorem extractMP4Info_isSome (data : List Nat) (info : VideoInfo) :
    ∃ i, extractMP4Info data info = some i := by
  unfold extractMP4Info
  exact extractMP4Loop_isSome data data.length 0 info (by omega)

theorem extractAVIInfo_isSome (data : List Nat) (info : VideoInfo) :
    ∃ i, extractAVIInfo data info = some i := by
  cases hidx : indexOfSeq data avihTag with
  | none => exact ⟨info, by simp only [extractAVIInfo, hidx]⟩
  | some avihPos =>
    simp only [extractAVIInfo, hidx]
    split_ifs with h
    · rw [sliceRange_eq (by omega) (by omega), Option.some_bind]
      have hlen :
          ((data.drop (avihPos + 8)).take (avihPos + 56 - (avihPos + 8))).length
            = 48 := by
        simp only [List.length_take, List.length_drop]
        omega
      obtain ⟨v1, hv1⟩ := readU32LE_isSome _ 0 (by rw [hlen]; omega)
      obtain ⟨v2, hv2⟩ := readU32LE_isSome _ 16 (by rw [hlen]; omega)
      obtain ⟨v3, hv3⟩ := readU32LE_isSome _ 32 (by rw [hlen]; omega)
      obtain ⟨v4, hv4⟩ := readU32LE_isSome _ 36 (by rw [hlen]; omega)
      rw [hv1, Option.some_bind, hv2, Option.some_bind, hv3,
        Option.some_bind, hv4, Option.some_bind]
      exact ⟨_, rfl⟩
    · exact ⟨info, rfl⟩

theorem extractDetailedInfo_isSome (data : List Nat) (format : String)
    (info : VideoInfo) : ∃ i, extractDetailedInfo data format info = some i := by
  unfold extractDetailedInfo
  split_ifs
  · exact extractMP4Info_isSome data info
  · exact extractAVIInfo_isSome data info
  · exact ⟨_, rfl⟩
  · exact ⟨_, rfl⟩

/-- Claim C2: `ExtractInfo` succeeds on every buffer of length ≥ 12 whose
format is recognized; the model-level out-of-bounds marker (a Go panic in
any walker or formatting step) is unreachable for every input; and it
returns an error exactly when the buffer is empty, shorter than 12 bytes,
or of unrecognized format. -/
theorem extractInfo_claim :
    (∀ (data : List Nat) (filename : String), 12 ≤ data.length →
        (detectFormatByMagicNumber data).isOk = true →
        ∃ info, extractInfo data filename = .ok info)
    ∧ (∀ (data : List Nat) (filename : String),
        extractInfo data filename ≠ .error .outOfBounds)
    ∧ (∀ (data : List Nat) (filename : String),
        (extractInfo data filename).isOk = false ↔
          (data.length = 0 ∨ data.length < 12 ∨
            ∃ e, detectFormatByMagicNumber data = .error e)) := by
  refine ⟨?_, ?_, ?_⟩
  · intro data filename h12 hok
    unfold extractInfo
    rw [if_neg (by omega), if_neg (by omega)]
    cases hdet : detectFormatByMagicNumber data with
    | error e => rw [hdet] at hok; simp [Except.isOk, Except.toBool] at hok
    | ok format =>
      obtain ⟨i, hi⟩ := extractDetailedInfo_isSome data format
        (VideoInfo.init filename format data.length)
      dsimp only
      rw [hi]
      exact ⟨_, rfl⟩
  · intro data filename
    unfold extractInfo
    split_ifs
    · simp
    · simp
    · cases hdet : detectFormatByMagicNumber data with
      | error e => simp
      | ok format =>
        obtain ⟨i, hi⟩ := extractDetailedInfo_isSome data format
          (VideoInfo.init filename format data.length)
        dsimp only
        rw [hi]
        simp
  · intro data filename
    unfold extractInfo
    split_ifs with h1 h2
    · simp [Except.isOk, Except.toBool, h1]
    · simp [Except.isOk, Except.toBool, h2]
    · cases hdet : detectFormatByMagicNumber data with
      | error e =>
        simp [Except.isOk, Except.toBool]
      | ok format =>
        obtain ⟨i, hi⟩ := extractDetailedInfo_isSome data format
          (VideoInfo.init filename format data.length)
        dsimp only
        rw [hi]
        simp [Except.isOk, Except.toBool, h1, h2]

/-- Witness for C2: a 12-byte WebM-signature buffer extracts successfully. -/
theorem extractInfo_claim_witness :
    ∃ info, extractInfo [0x1A, 0x45, 0xDF, 0xA3, 0, 0, 0, 0, 0, 0, 0, 0]
      "video.webm" = .ok info :=
  extractInfo_claim.1 [0x1A, 0x45, 0xDF, 0xA3, 0, 0, 0, 0, 0, 0, 0, 0]
    "video.webm" (by decide) (by decide)

/-! ## FormatSniffer: `ValidateFormat` -/

/-- Scan for Go `filepath.Ext`, walking the reversed filename: collect
characters until the final dot (returning the collected suffix) or a path
separator / the start of the string (no extension). -/
def extRevScan (acc : List Char) : List Char → Option (List Char)
  | [] => none
  | c :: rest =>
    if c = '/' then none
    else if c = '.' then some acc
    else extRevScan (c :: acc) rest

/-- Model of `strings.ToLower(strings.TrimPrefix(filepath.Ext(filename), "."))` as
used by `ValidateFormat` (info_extractor.go:501). -/
def getFileExtension (filename : String) : String :=
  match extRevScan [] filename.data.reverse with
  | none => ""
  | some cs => String.mk (cs.map Char.toLower)

/-- Model of `initSupportedFormats` (info_extractor.go:454-459). -/
def supportedFormats : List String := ["mp4", "webm", "avi", "mov"]

/-- Go `strings.ToLower`, character-wise (ASCII; the extensions involved
are ASCII). -/
def lowerString (s : String) : String :=
  String.mk (s.data.map Char.toLower)

/-- Model of `IsFormatSupported` (info_extractor.go:677-679): lowercased lookup. -/
def isFormatSupported (format : String) : Bool :=
  supportedFormats.contains (lowerString format)

/-- The `err.Error()` strings stored by `ValidateFormat` when detection
fails (info_extractor.go:509-513). -/
def formatErrorMessage : FormatError → String
  | .incompleteHeader => "数据长度不足以检测格式"
  | .unrecognizedFormat => "无法识别的视频格式"

/-- The `ValidationResult` struct (info_extractor.go:412-416). -/
structure ValidationResult where
  isValid : Bool
  detectedFormat : String
  errorMessage : String
deriving Repr, DecidableEq

/-- Errors returned by `ValidateFormat` (info_extractor.go:486-524), one per
`fmt.Errorf` site. -/
inductive ValidationError
  | emptyFilename
  | emptyContent
  | incompleteHeader
  | unsupportedFormat (ext : String)
  | formatMismatch (ext detected : String)
deriving Repr, DecidableEq

/-- Model of `VideoValidator.ValidateFormat` (info_extractor.go:486-524): input
guards, extension support check, magic-number detection (a detection error
becomes an invalid `ValidationResult`, not a Go error), then the
extension/content mismatch check. -/
def validateFormat (filename : String) (data : List Nat) :
    Except ValidationError ValidationResult :=
  if filename = "" then .error .emptyFilename
  else if data.length = 0 then .error .emptyContent
  else if data.length < 4 then .error .incompleteHeader
  else if isFormatSupported (getFileExtension filename) = false then
    .error (.unsupportedFormat (getFileExtension filename))
  else
    match detectFormatByMagicNumber data with
    | .error e =>
      .ok { isValid := false, detectedFormat := "",
            errorMessage := formatErrorMessage e }
    | .ok detectedFormat =>
      if getFileExtension filename ≠ detectedFormat then
        .error (.formatMismatch (getFileExtension filename) detectedFormat)
      else
        .ok { isValid := true, detectedFormat := detectedFormat,
              errorMessage := "" }

/-- Claim C3: with a supported filename extension and non-empty bytes whose
detected format differs from that extension, `ValidateFormat` fails
`FormatMismatch`; in particular a ".mp4"-named file carrying the WebM EBML
signature fails `FormatMismatch`. -/
theorem validateFormat_claim :
    (∀ (filename : String) (data : List Nat) (fmt : String),
        isFormatSupported (getFileExtension filename) = true →
        data ≠ [] →
        detectFormatByMagicNumber data = .ok fmt →
        fmt ≠ getFileExtension filename →
        validateFormat filename data =
          .error (.formatMismatch (getFileExtension filename) fmt))
    ∧ validateFormat "video.mp4" [0x1A, 0x45, 0xDF, 0xA3] =
        .error (.formatMismatch "mp4" "webm") := by
  constructor
  · intro filename data fmt hsupp hne hdet hmis
    have hfn : ¬ filename = "" := by
      intro h
      rw [h] at hsupp
      exact absurd hsupp (by decide)
    have hlen4 : ¬ data.length < 4 := by
      intro hc
      unfold detectFormatByMagicNumber at hdet
      rw [if_pos hc] at hdet
      exact absurd hdet (by simp)
    unfold validateFormat
    rw [if_neg hfn, if_neg (by simpa using hne), if_neg hlen4,
      if_neg (by rw [hsupp]; simp)]
    rw [hdet]
    dsimp only
    rw [if_pos (Ne.symm hmis)]
  · decide

/-- Witness for C3 on a ".avi"-named file with WebM bytes. -/
theorem validateFormat_claim_witness :
    validateFormat "video.avi" [0x1A, 0x45, 0xDF, 0xA3] =
      .error (.formatMismatch (getFileExtension "video.avi") "webm") :=
  validateFormat_claim.1 "video.avi" [0x1A, 0x45, 0xDF, 0xA3] "webm"
    (by decide) (by decide) (by decide) (by decide)

/-! ## ThumbnailSynthesizer (`ThumbnailGenerator`, thumbnail generator file) -/

/-- Dimension bounds held by `ThumbnailGenerator`. -/
structure ThumbnailGenerator where
  maxWidth : Int
  maxHeight : Int
  minWidth : Int
  minHeight : Int
deriving Repr, DecidableEq

/-- Model of `NewThumbnailGenerator`: 1920×1080 max, 64×64 min. -/
def newThumbnailGenerator : ThumbnailGenerator :=
  { maxWidth := 1920, maxHeight := 1080, minWidth := 64, minHeight := 64 }

/-- The `ThumbnailOptions` struct; the float64 time offset is an exact
rational. -/
structure ThumbnailOptions where
  width : Int
  height : Int
  quality : Int
  format : String
  timeOffset : ℚ
  keepAspect : Bool
deriving Repr, DecidableEq

/-- Model of `GetDefaultOptions`: 320×240, quality 80, jpeg, offset 0, keep aspect. -/
def getDefaultOptions : ThumbnailOptions :=
  { width := 320, height := 240, quality := 80, format := "jpeg",
    timeOffset := 0, keepAspect := true }

/-- Errors of the thumbnail generator, one per `fmt.Errorf` site;
`atOffset` is `GenerateMultiple`'s wrapper, which embeds the failing
offset's value and the inner error. -/
inductive ThumbnailError
  | emptyVideoData
  | unrecognizedFormat (e : FormatError)
  | widthOutOfRange
  | heightOutOfRange
  | unsupportedImageFormat
  | qualityOutOfRange
  | negativeOffset
  | jpegEncodeFailed
  | pngEncodeFailed
  | unsupportedOutputFormat
  | emptyOffsets
  | atOffset (t : ℚ) (e : ThumbnailError)
deriving Repr, DecidableEq

/-- Model of `ThumbnailGenerator.ValidateOptions`: dimension ranges, output format
set {jpeg, png}, JPEG-only quality range, non-negative time offset. -/
def validateOptions (g : ThumbnailGenerator) (o : ThumbnailOptions) :
    Except ThumbnailError Unit :=
  if o.width < g.minWidth ∨ g.maxWidth < o.width then .error .widthOutOfRange
  else if o.height < g.minHeight ∨ g.maxHeight < o.height then
    .error .heightOutOfRange
  else if o.format = "jpeg" ∨ o.format = "png" then
    if o.format = "jpeg" ∧ (o.quality < 1 ∨ 100 < o.quality) then
      .error .qualityOutOfRange
    else if o.timeOffset < 0 then .error .negativeOffset
    else .ok ()
  else .error .unsupportedImageFormat

/-- The `ThumbnailResult` struct. -/
structure ThumbnailResult where
  imageData : List Nat
  width : Int
  height : Int
  format : String
  fileSize : Int
  timeOffset : ℚ
deriving Repr, DecidableEq

/-- Abstraction of the Go stdlib raster encoders used by
`generateMockThumbnail` (`image/jpeg`, `image/png` — external to this
repository): given the detected video format (which selects the background
color of the synthesized raster), the JPEG quality, and the raster
dimensions, produce the encoded bytes, or fail (Go surfaces an encoder
error as `JPEG编码失败` / `PNG编码失败`). -/
structure ImageEncoder where
  encodeJPEG : String → Int → Int → Int → Option (List Nat)
  encodePNG : String → Int → Int → Option (List Nat)

/-- Model of `generateMockThumbnail`: encode with the requested output format and
return the result record carrying the option's dimensions, format and time
offset, with `FileSize` the encoded byte count. -/
def generateMockThumbnail (enc : ImageEncoder) (format : String)
    (options : ThumbnailOptions) : Except ThumbnailError ThumbnailResult :=
  if options.format = "jpeg" then
    match enc.encodeJPEG format options.quality options.width options.height with
    | some bs =>
      .ok { imageData := bs, width := options.width, height := options.height,
            format := options.format, fileSize := (bs.length : Int),
            timeOffset := options.timeOffset }
    | none => .error .jpegEncodeFailed
  else if options.format = "png" then
    match enc.encodePNG format options.width options.height with
    | some bs =>
      .ok { imageData := bs, width := options.width, height := options.height,
            format := options.format, fileSize := (bs.length : Int),
            timeOffset := options.timeOffset }
    | none => .error .pngEncodeFailed
  else .error .unsupportedOutputFormat

/-- Model of `ThumbnailGenerator.GenerateFromVideo`: empty-data guard, format
detection, defaulting of absent options, option validation, synthesis. -/
def generateFromVideo (g : ThumbnailGenerator) (enc : ImageEncoder)
    (data : List Nat) (requestOptions : Option ThumbnailOptions) :
    Except ThumbnailError ThumbnailResult :=
  if data.length = 0 then .error .emptyVideoData
  else
    match detectFormatByMagicNumber data with
    | .error e => .error (.unrecognizedFormat e)
    | .ok format =>
      let options := requestOptions.getD getDefaultOptions
      match validateOptions g options with
      | .error e => .error e
      | .ok _ => generateMockThumbnail enc format options

/-- Loop of `GenerateMultiple`: clone the options with each offset in input
order, abort on the first failure wrapping the failing offset's value. -/
def generateMultipleLoop (g : ThumbnailGenerator) (enc : ImageEncoder)
    (data : List Nat) (opts : ThumbnailOptions) :
    List ℚ → Except ThumbnailError (List ThumbnailResult)
  | [] => .ok []
  | t :: ts =>
    match generateFromVideo g enc data (some { opts with timeOffset := t }) with
    | .error e => .error (.atOffset t e)
    | .ok r =>
      match generateMultipleLoop g enc data opts ts with
      | .error e => .error e
      | .ok rs => .ok (r :: rs)

/-- Model of `ThumbnailGenerator.GenerateMultiple`: empty-data and empty-offset-list
guards, then the loop. -/
def generateMultiple (g : ThumbnailGenerator) (enc : ImageEncoder)
    (data : List Nat) (timeOffsets : List ℚ) (opts : ThumbnailOptions) :
    Except ThumbnailError (List ThumbnailResult) :=
  if data.length = 0 then .error .emptyVideoData
  else if timeOffsets.length = 0 then .error .emptyOffsets
  else generateMultipleLoop g enc data opts timeOffsets

/-- Model of `ThumbnailGenerator.CalculateAspectRatio`, with float64 idealized as
exact rationals and Go's truncating `int(·)` conversion as the floor (the
two agree on the non-negative values arising from positive inputs). -/
def calculateAspectRatio (originalWidth originalHeight targetWidth
    targetHeight : Int) : Int × Int :=
  let originalAspect : ℚ := (originalWidth : ℚ) / (originalHeight : ℚ)
  let targetAspect : ℚ := (targetWidth : ℚ) / (targetHeight : ℚ)
  if targetAspect < originalAspect then
    (targetWidth, ⌊(targetWidth : ℚ) / originalAspect⌋)
  else
    (⌊(targetHeight : ℚ) * originalAspect⌋, targetHeight)

/-- A concrete encoder instance used for witnesses: always succeeds with a
one-byte payload. -/
def trivialEncoder : ImageEncoder :=
  { encodeJPEG := fun _ _ _ _ => some [0], encodePNG := fun _ _ _ => some [0] }

/-- Claim C7: under the default bounds, `ValidateOptions` accepts exactly
when width ∈ [64,1920], height ∈ [64,1080], format ∈ {jpeg, png}, quality ∈
[1,100] whenever format is jpeg, and time_offset ≥ 0; width 32 and 2048 are
rejected, width 64 and 1920 accepted. -/
theorem validateOptions_claim :
    (∀ o : ThumbnailOptions,
        validateOptions newThumbnailGenerator o = .ok () ↔
          (64 ≤ o.width ∧ o.width ≤ 1920 ∧ 64 ≤ o.height ∧ o.height ≤ 1080
           ∧ (o.format = "jpeg" ∨ o.format = "png")
           ∧ (o.format = "jpeg" → 1 ≤ o.quality ∧ o.quality ≤ 100)
           ∧ 0 ≤ o.timeOffset))
    ∧ validateOptions newThumbnailGenerator
        { getDefaultOptions with width := 32 } = .error .widthOutOfRange
    ∧ validateOptions newThumbnailGenerator
        { getDefaultOptions with width := 2048 } = .error .widthOutOfRange
    ∧ validateOptions newThumbnailGenerator
        { getDefaultOptions with width := 64 } = .ok ()
    ∧ validateOptions newThumbnailGenerator
        { getDefaultOptions with width := 1920 } = .ok () := by
  refine ⟨?_, by decide, by decide, by decide, by decide⟩
  intro o
  simp only [validateOptions, newThumbnailGenerator]
  split_ifs with h1 h2 h3 h4 h5
  · exact iff_of_false (by simp) (by rintro ⟨ha, hb, -⟩; omega)
  · exact iff_of_false (by simp) (by rintro ⟨-, -, hc, hd, -⟩; omega)
  · exact iff_of_false (by simp)
      (by rintro ⟨-, -, -, -, -, hq, -⟩
          obtain ⟨hj, hr⟩ := h4
          have := hq hj
          omega)
  · exact iff_of_false (by simp)
      (by rintro ⟨-, -, -, -, -, -, ht⟩; exact absurd ht (not_le.mpr h5))
  · refine iff_of_true rfl ⟨by omega, by omega, by omega, by omega, h3,
      ?_, not_lt.mp h5⟩
    intro hj
    have h6 : ¬ (o.quality < 1 ∨ 100 < o.quality) := fun hq => h4 ⟨hj, hq⟩
    omega
  · exact iff_of_false (by simp) (by rintro ⟨-, -, -, -, hf, -⟩; exact h3 hf)

/-- Witness for C7: the default options validate. -/
theorem validateOptions_claim_witness :
    validateOptions newThumbnailGenerator getDefaultOptions = .ok () :=
  (validateOptions_claim.1 getDefaultOptions).mpr (by decide)

/-! ### Lemmas for `GenerateMultiple` (C8) -/

theorem generateMockThumbnail_timeOffset {enc : ImageEncoder}
    {format : String} {o : ThumbnailOptions} {r : ThumbnailResult}
    (h : generateMockThumbnail enc format o = .ok r) :
    r.timeOffset = o.timeOffset := by
  unfold generateMockThumbnail at h
  split_ifs at h
  · cases henc : enc.encodeJPEG format o.quality o.width o.height with
    | none => rw [henc] at h; exact absurd h (by simp)
    | some bs =>
      rw [henc] at h
      injection h with h'
      subst h'
      rfl
  · cases henc : enc.encodePNG format o.width o.height with
    | none => rw [henc] at h; exact absurd h (by simp)
    | some bs =>
      rw [henc] at h
      injection h with h'
      subst h'
      rfl

theorem generateFromVideo_timeOffset {g : ThumbnailGenerator}
    {enc : ImageEncoder} {data : List Nat} {o : ThumbnailOptions}
    {r : ThumbnailResult}
    (h : generateFromVideo g enc data (some o) = .ok r) :
    r.timeOffset = o.timeOffset := by
  unfold generateFromVideo at h
  split_ifs at h
  cases hdet : detectFormatByMagicNumber data with
  | error e => simp only [hdet] at h; exact absurd h (by simp)
  | ok format =>
    simp only [hdet, Option.getD_some] at h
    cases hv : validateOptions g o with
    | error e => simp only [hv] at h; exact absurd h (by simp)
    | ok u => simp only [hv] at h; exact generateMockThumbnail_timeOffset h

theorem generateMultipleLoop_ok {g : ThumbnailGenerator} {enc : ImageEncoder}
    {data : List Nat} {opts : ThumbnailOptions} :
    ∀ (ts : List ℚ) (rs : List ThumbnailResult),
    generateMultipleLoop g enc data opts ts = .ok rs →
    rs.length = ts.length ∧ ∀ (i : Nat) (h1 : i < rs.length)
      (h2 : i < ts.length), (rs.get ⟨i, h1⟩).timeOffset = ts.get ⟨i, h2⟩ := by
  intro ts
  induction ts with
  | nil =>
    intro rs h
    unfold generateMultipleLoop at h
    injection h with h'
    subst h'
    exact ⟨rfl, by intro i h1 h2; simp at h1⟩
  | cons t ts ih =>
    intro rs h
    unfold generateMultipleLoop at h
    cases hg : generateFromVideo g enc data
        (some { opts with timeOffset := t }) with
    | error e => rw [hg] at h; exact absurd h (by simp)
    | ok r =>
      rw [hg] at h
      cases hl : generateMultipleLoop g enc data opts ts with
      | error e => simp only [hl] at h; exact absurd h (by simp)
      | ok rs' =>
        simp only [hl] at h
        injection h with h'
        subst h'
        obtain ⟨hlen, hidx⟩ := ih rs' hl
        refine ⟨by simp [hlen], ?_⟩
        intro i h1 h2
        cases i with
        | zero =>
          simpa using generateFromVideo_timeOffset hg
        | succ j =>
          simpa using hidx j (by simpa using h1) (by simpa using h2)

theorem generateMultipleLoop_firstError {g : ThumbnailGenerator}
    {enc : ImageEncoder} {data : List Nat} {opts : ThumbnailOptions} :
    ∀ (ts : List ℚ) (i : Nat) (h : i < ts.length) (e : ThumbnailError),
    (∀ (j : Nat) (hj : j < ts.length), j < i →
      (generateFromVideo g enc data
        (some { opts with timeOffset := ts.get ⟨j, hj⟩ })).isOk = true) →
    generateFromVideo g enc data
      (some { opts with timeOffset := ts.get ⟨i, h⟩ }) = .error e →
    generateMultipleLoop g enc data opts ts =
      .error (.atOffset (ts.get ⟨i, h⟩) e) := by
  intro ts
  induction ts with
  | nil => intro i h; exact absurd h (by simp)
  | cons t ts ih =>
    intro i h e hprev herr
    cases i with
    | zero =>
      unfold generateMultipleLoop
      rw [show (t :: ts).get ⟨0, h⟩ = t from rfl] at herr ⊢
      rw [herr]
    | succ j =>
      unfold generateMultipleLoop
      have h0 : (generateFromVideo g enc data
          (some { opts with timeOffset := t })).isOk = true := by
        have := hprev 0 (by simp) (by omega)
        simpa using this
      cases hg : generateFromVideo g enc data
          (some { opts with timeOffset := t }) with
      | error e' => rw [hg] at h0; simp [Except.isOk, Except.toBool] at h0
      | ok r =>
        have hrec := ih j (by simpa using h) e
          (fun k hk hki => by
            have := hprev (k + 1) (by simpa using hk) (by omega)
            simpa using this)
          (by simpa using herr)
        dsimp only
        rw [hrec]
        simp

/-- Counterexample for C8 as stated: with recognized WebM bytes, valid
options, and the empty offset list (N = 0), `GenerateMultiple` does not
return 0 results in input order — it fails on the empty list. -/
theorem generateMultiple_cex :
    generateMultiple newThumbnailGenerator trivialEncoder
      [0x1A, 0x45, 0xDF, 0xA3] [] getDefaultOptions = .error .emptyOffsets := by
  decide

/-- Claim C8 amended: for every recognized non-empty buffer, options record
and non-empty offset list, a successful `GenerateMultiple` returns exactly
N results in input order, the i-th carrying the i-th input offset; the
empty offset list is rejected; and on the first failing offset the call
aborts, annotating that offset's value with the inner error.  The theorem
quantifies over the abstracted raster encoder. -/
theorem generateMultiple_amended :
    (∀ (g : ThumbnailGenerator) (enc : ImageEncoder) (data : List Nat)
        (offsets : List ℚ) (opts : ThumbnailOptions)
        (rs : List ThumbnailResult),
        generateMultiple g enc data offsets opts = .ok rs →
        rs.length = offsets.length ∧ ∀ (i : Nat) (h1 : i < rs.length)
          (h2 : i < offsets.length),
          (rs.get ⟨i, h1⟩).timeOffset = offsets.get ⟨i, h2⟩)
    ∧ (∀ (g : ThumbnailGenerator) (enc : ImageEncoder) (data : List Nat)
        (opts : ThumbnailOptions),
        (generateMultiple g enc data [] opts).isOk = false)
    ∧ (∀ (g : ThumbnailGenerator) (enc : ImageEncoder) (data : List Nat)
        (opts : ThumbnailOptions) (offsets : List ℚ) (i : Nat)
        (h : i < offsets.length) (e : ThumbnailError),
        data ≠ [] →
        (∀ (j : Nat) (hj : j < offsets.length), j < i →
          (generateFromVideo g enc data
            (some { opts with timeOffset := offsets.get ⟨j, hj⟩ })).isOk
              = true) →
        generateFromVideo g enc data
          (some { opts with timeOffset := offsets.get ⟨i, h⟩ }) = .error e →
        generateMultiple g enc data offsets opts =
          .error (.atOffset (offsets.get ⟨i, h⟩) e)) := by
  refine ⟨?_, ?_, ?_⟩
  · intro g enc data offsets opts rs h
    unfold generateMultiple at h
    split_ifs at h
    exact generateMultipleLoop_ok offsets rs h
  · intro g enc data opts
    unfold generateMultiple
    split_ifs with hd he
    · rfl
    · rfl
    · exact absurd rfl he
  · intro g enc data opts offsets i h e hne hprev herr
    unfold generateMultiple
    rw [if_neg (by simpa using hne), if_neg (by omega)]
    exact generateMultipleLoop_firstError offsets i h e hprev herr

/-- Witness for the amended C8: two offsets yield two results in order. -/
theorem generateMultiple_amended_witness :
    generateMultiple newThumbnailGenerator trivialEncoder
        [0x1A, 0x45, 0xDF, 0xA3] [0, 5] getDefaultOptions =
      .ok [{ imageData := [0], width := 320, height := 240, format := "jpeg",
             fileSize := 1, timeOffset := 0 },
           { imageData := [0], width := 320, height := 240, format := "jpeg",
             fileSize := 1, timeOffset := 5 }]
    ∧ ([{ imageData := [0], width := 320, height := 240, format := "jpeg",
          fileSize := 1, timeOffset := 0 },
        { imageData := [0], width := 320, height := 240, format := "jpeg",
          fileSize := 1, timeOffset := (5 : ℚ) }] : List ThumbnailResult).length
        = ([0, 5] : List ℚ).length := by
  refine ⟨by decide, ?_⟩
  exact (generateMultiple_amended.1 newThumbnailGenerator trivialEncoder
    [0x1A, 0x45, 0xDF, 0xA3] [0, 5] getDefaultOptions _ (by decide)).1

/-- Claim C9: with positive inputs, `CalculateAspectRatio` binds to the
destination width when the source aspect exceeds the destination aspect
(deriving the truncated height), otherwise binds to the destination height
(deriving the truncated width); the result always fits the destination
box; and `CalculateAspectRatio(1920,1080,320,240) = (320,180)`. -/
theorem calculateAspectRatio_claim :
    (∀ sw sh tw th : Int, 0 < sw → 0 < sh → 0 < tw → 0 < th →
      (((tw : ℚ) / th < (sw : ℚ) / sh →
          calculateAspectRatio sw sh tw th =
            (tw, ⌊(tw : ℚ) / ((sw : ℚ) / sh)⌋))
       ∧ ((sw : ℚ) / sh ≤ (tw : ℚ) / th →
          calculateAspectRatio sw sh tw th =
            (⌊(th : ℚ) * ((sw : ℚ) / sh)⌋, th))
       ∧ (calculateAspectRatio sw sh tw th).1 ≤ tw
       ∧ (calculateAspectRatio sw sh tw th).2 ≤ th))
    ∧ calculateAspectRatio 1920 1080 320 240 = (320, 180) := by
  constructor
  · intro sw sh tw th hsw hsh htw hth
    have hswq : (0 : ℚ) < (sw : ℚ) := by exact_mod_cast hsw
    have hshq : (0 : ℚ) < (sh : ℚ) := by exact_mod_cast hsh
    have htwq : (0 : ℚ) < (tw : ℚ) := by exact_mod_cast htw
    have hthq : (0 : ℚ) < (th : ℚ) := by exact_mod_cast hth
    have haspect : (0 : ℚ) < (sw : ℚ) / (sh : ℚ) := by positivity
    refine ⟨?_, ?_, ?_, ?_⟩
    · intro hlt
      simp only [calculateAspectRatio]
      rw [if_pos hlt]
    · intro hle
      simp only [calculateAspectRatio]
      rw [if_neg (not_lt.mpr hle)]
    · simp only [calculateAspectRatio]
      split_ifs with hlt
      · exact le_refl tw
      · have hle : (sw : ℚ) / sh ≤ (tw : ℚ) / th := not_lt.mp hlt
        have hbound : (th : ℚ) * ((sw : ℚ) / sh) ≤ (tw : ℚ) := by
          have h2 := mul_le_mul_of_nonneg_left hle (le_of_lt hthq)
          calc (th : ℚ) * ((sw : ℚ) / sh) ≤ (th : ℚ) * ((tw : ℚ) / th) := h2
            _ = (tw : ℚ) := by field_simp
        calc ⌊(th : ℚ) * ((sw : ℚ) / sh)⌋ ≤ ⌊(tw : ℚ)⌋ :=
              Int.floor_le_floor hbound
          _ = tw := Int.floor_intCast tw
    · simp only [calculateAspectRatio]
      split_ifs with hlt
      · have hbound : (tw : ℚ) / ((sw : ℚ) / sh) ≤ (th : ℚ) := by
          rw [div_le_iff haspect]
          rw [div_lt_div_iff hthq hshq] at hlt
          rw [← mul_div_assoc, le_div_iff hshq]
          nlinarith
        calc ⌊(tw : ℚ) / ((sw : ℚ) / sh)⌋ ≤ ⌊(th : ℚ)⌋ :=
              Int.floor_le_floor hbound
          _ = th := Int.floor_intCast th
      · exact le_refl th
  · simp only [calculateAspectRatio]
    rw [if_pos (by norm_num)]
    have : ((320 : Int) : ℚ) / (((1920 : Int) : ℚ) / ((1080 : Int) : ℚ))
        = ((180 : Int) : ℚ) := by norm_num
    rw [this, Int.floor_intCast]

/-- Witness for C9 at (1920, 1080, 320, 240): the result fits the box. -/
theorem calculateAspectRatio_claim_witness :
    (calculateAspectRatio 1920 1080 320 240).1 ≤ 320 :=
  (calculateAspectRatio_claim.1 1920 1080 320 240 (by decide) (by decide)
    (by decide) (by decide)).2.2.1

end Zhulong
